import Mathlib

/-
Verification of the cash-out transaction lifecycle engine.

The definitions below are a shallow embedding of the source file's data
model and operations: transaction records, the status ratchet, the
field-level diff, the partial update, pre-processing (status ratcheting,
side-effect dispatch, audit logging), post-processing (note
provisioning), and operator cancellation.  JavaScript null/undefined is
collapsed into `Option.none` (matching lodash `isNil`, which treats both
alike), and JS truthiness is made explicit in `truthy`.
-/

namespace CashOut

/-- Atomic JS values stored in transaction fields and audit payloads. -/
inductive Value
  | str : String → Value
  | bool : Bool → Value
  | num : Int → Value
deriving DecidableEq, Repr

/-- JS truthiness of an atomic value. -/
def truthyV : Value → Bool
  | .str s => !s.isEmpty
  | .bool b => b
  | .num n => n != 0

/-- JS truthiness of a possibly-nil value (`undefined`/`null` are falsy). -/
def truthy : Option Value → Bool
  | none => false
  | some v => truthyV v

/-- One cassette's worth of bill accounting, an entry of `tx.bills`. -/
structure Bill where
  provisioned : Int
  dispensed : Int
  rejected : Int
  denomination : Int
deriving DecidableEq, Repr

/-- A cassette as produced by the integration's `buildCassettes`. -/
structure Cassette where
  denomination : Int
  count : Int
deriving DecidableEq, Repr

/-- A `cash_out_txs` record as seen by this module (camel-cased object).
Fields that may be null/undefined are `Option Value`; `bills` is kept as a
list (absent is `[]`, matching lodash `isEmpty`). -/
structure Tx where
  id : String
  status : Option Value
  txHash : Option Value
  dispense : Option Value
  dispenseConfirmed : Option Value
  dispenseTime : Option Value
  notified : Option Value
  redeem : Option Value
  phone : Option Value
  error : Option Value
  errorCode : Option Value
  swept : Option Value
  toAddress : Option Value
  fiat : Int
  deviceId : String
  bills : List Bill
deriving DecidableEq, Repr

/-- The fixed status order used by `ratchetStatus` (source `statusOrder`). -/
def statusOrder : List String := ["notSeen", "published", "rejected",
  "authorized", "instant", "confirmed"]

/-- JS `Array.prototype.indexOf` of a (possibly non-string, possibly nil)
value in a string array: `-1` when absent or when the value is not one of
the array's strings. -/
def jsIndexOf (l : List String) (v : Option Value) : Int :=
  match v with
  | some (.str s) =>
    match l.findIdx? (fun e => e = s) with
    | some i => Int.ofNat i
    | none => -1
  | _ => -1

/-- JS array indexing `l[i]`: `undefined` (here `none`) when out of range,
in particular at index `-1`. -/
def arrGet (l : List String) (i : Int) : Option String :=
  if i < 0 then none else l[i.toNat]?

/-- Source `ratchetStatus(oldStatus, newStatus)`: equal statuses pass
through, `insufficientFunds` overrides unconditionally, otherwise the
status with the larger index in `statusOrder` wins
(`Math.max` of the two `indexOf` results, `-1` for unknown statuses). -/
def ratchetStatus (oldStatus newStatus : Option Value) : Option Value :=
  if oldStatus = newStatus then oldStatus
  else if newStatus = some (.str "insufficientFunds") then newStatus
  else
    (arrGet statusOrder
      (max (jsIndexOf statusOrder oldStatus) (jsIndexOf statusOrder newStatus))).map Value.str

/-- The seven statuses a stored transaction can carry: the six ordered
ones plus the out-of-band `insufficientFunds` override. -/
inductive StatusV
  | notSeen | published | rejected | authorized | instant | confirmed
  | insufficientFunds
deriving DecidableEq, Fintype, Repr

/-- The status string each `StatusV` stands for. -/
def StatusV.toStr : StatusV → String
  | .notSeen => "notSeen"
  | .published => "published"
  | .rejected => "rejected"
  | .authorized => "authorized"
  | .instant => "instant"
  | .confirmed => "confirmed"
  | .insufficientFunds => "insufficientFunds"

/-- The status as the JS value held in a record's `status` field. -/
def StatusV.toVal (s : StatusV) : Option Value := some (.str s.toStr)

/-- The eight updateable fields of source `UPDATEABLE_FIELDS`. -/
inductive TxField
  | txHash | status | dispense | notified | redeem | phone | error | swept
deriving DecidableEq, Repr

/-- Source `UPDATEABLE_FIELDS`, in its order. -/
def UPDATEABLE_FIELDS : List TxField :=
  [.txHash, .status, .dispense, .notified, .redeem, .phone, .error, .swept]

/-- Read an updateable field of a record (JS property access). -/
def getField (t : Tx) : TxField → Option Value
  | .txHash => t.txHash
  | .status => t.status
  | .dispense => t.dispense
  | .notified => t.notified
  | .redeem => t.redeem
  | .phone => t.phone
  | .error => t.error
  | .swept => t.swept

/-- Write an updateable field of a record. -/
def setField (t : Tx) : TxField → Option Value → Tx
  | .txHash, v => { t with txHash := v }
  | .status, v => { t with status := v }
  | .dispense, v => { t with dispense := v }
  | .notified, v => { t with notified := v }
  | .redeem, v => { t with redeem := v }
  | .phone, v => { t with phone := v }
  | .error, v => { t with error := v }
  | .swept, v => { t with swept := v }

/-- Source `_.isEqualWith(nilEqual, a, b)`: equal when both values are nil
(`nilEqual` returns true), otherwise lodash deep equality (the customizer
returns undefined and `isEqual` decides). -/
def nilEqualWith : Option Value → Option Value → Bool
  | none, none => true
  | some a, some b => a == b
  | _, _ => false

/-- The patch object built by `diff`: present keys with their (possibly
nil) values, in field order. -/
def Patch : Type := List (TxField × Option Value)

instance : DecidableEq Patch := inferInstanceAs (DecidableEq (List (TxField × Option Value)))

/-- Per-field view of source `diff(oldTx, newTx)`: `none` when the field
is left out of the patch, `some v` when the patch carries `v`.  With an
existing row the field is skipped when the values are (nil-)equal and
when the new value is nil (the source comment: we never null out an
existing field); with no existing row both guards are short-circuited by
`oldTx &&` and every field is taken. -/
def diffGet (oldTx : Option Tx) (newTx : Tx) (f : TxField) : Option (Option Value) :=
  match oldTx with
  | some o =>
    if nilEqualWith (getField o f) (getField newTx f) then none
    else if (getField newTx f).isNone then none
    else some (getField newTx f)
  | none => some (getField newTx f)

/-- Source `diff(oldTx, newTx)` as the patch object it builds. -/
def diff (oldTx : Option Tx) (newTx : Tx) : Patch :=
  UPDATEABLE_FIELDS.filterMap (fun f => (diffGet oldTx newTx f).map (fun v => (f, v)))

/-- Source `toDb(tx)`: big-number fields stringified, `direction` and
`bills` omitted, keys snake-cased.  The result is the column/value list
handed to the SQL builder. -/
def toDb (tx : Tx) : List (String × Option Value) :=
  [("id", some (.str tx.id)),
   ("status", tx.status),
   ("tx_hash", tx.txHash),
   ("dispense", tx.dispense),
   ("dispense_confirmed", tx.dispenseConfirmed),
   ("dispense_time", tx.dispenseTime),
   ("notified", tx.notified),
   ("redeem", tx.redeem),
   ("phone", tx.phone),
   ("error", tx.error),
   ("error_code", tx.errorCode),
   ("swept", tx.swept),
   ("to_address", tx.toAddress),
   ("fiat", some (.str (toString tx.fiat))),
   ("device_id", some (.str tx.deviceId))]

/-- Lodash `_.merge(tx, changes)` for a patch: later keys win, sources
that resolve to undefined are skipped. -/
def mergeTx (tx : Tx) (changes : Patch) : Tx :=
  changes.foldl (fun t fv =>
    match fv.2 with
    | none => t
    | some v => setField t fv.1 (some v)) tx

/-- What a call to source `update(tx, changes)` does: `write` is the
column list of the SQL `update` statement it issues (`none` when no
statement is issued at all), `tx` is the record the call resolves to. -/
structure UpdateResult where
  write : Option (List (String × Option Value))
  tx : Tx
deriving DecidableEq, Repr

/-- Source `update(tx, changes)`: an empty patch resolves immediately with
the unchanged record and no SQL; otherwise the SQL update is built from
`toDb(tx)` — the full record, despite the variable name `dbChanges` —
and the resolved record is `_.merge(tx, changes)`. -/
def update (tx : Tx) (changes : Patch) : UpdateResult :=
  if changes.isEmpty then { write := none, tx := tx }
  else { write := some (toDb tx), tx := mergeTx tx changes }

/-- A stored record holding a phone number. -/
def c3old : Tx :=
  { id := "t1", status := some (.str "published"), txHash := none,
    dispense := none, dispenseConfirmed := none, dispenseTime := none,
    notified := none, redeem := none, phone := some (.str "5551234"),
    error := none, errorCode := none, swept := none, toAddress := none,
    fiat := 20, deviceId := "d1", bills := [] }

/-- An incoming record identical to `c3old` but with no phone. -/
def c3new : Tx := { c3old with phone := none }

/-- A fully-populated stored record used to exercise `update`. -/
def c4tx : Tx :=
  { id := "t1", status := some (.str "published"), txHash := some (.str "0xabc"),
    dispense := some (.bool false), dispenseConfirmed := some (.bool false),
    dispenseTime := none, notified := some (.bool false),
    redeem := some (.bool false), phone := some (.str "5551234"),
    error := none, errorCode := none, swept := some (.bool false),
    toAddress := some (.str "addr1"), fiat := 20, deviceId := "d1", bills := [] }

/-- A one-field patch advancing only the status. -/
def c4patch : Patch := [(TxField.status, some (.str "confirmed"))]

/-- A row of the append-only `cash_out_actions` table, as built by
`logAction`/`logActionById`: the action name (a JS value — one call site
passes the record's status field), the transaction id, the record's
coerced `redeem` flag and the extra payload columns. -/
structure AuditEntry where
  action : Option Value
  tx_id : String
  redeem : Bool
  payload : List (String × Option Value)
deriving DecidableEq, Repr

/-- Source `logAction(action, _rec, tx)`: appends a row carrying the
payload plus `{action, tx_id: tx.id, redeem: !!tx.redeem}` and resolves
to `tx`. -/
def logAction (action : Option Value) (rec : List (String × Option Value))
    (tx : Tx) : AuditEntry :=
  { action := action, tx_id := tx.id, redeem := truthy tx.redeem, payload := rec }

/-- Source `logActionById(action, _rec, txId)`: like `logAction` but with
a literal id and `redeem: false`. -/
def logActionById (action : Option Value) (rec : List (String × Option Value))
    (txId : String) : AuditEntry :=
  { action := action, tx_id := txId, redeem := false, payload := rec }

/-- A structured failure as built by `httpError`: message, JS `err.name`
and numeric code. -/
structure HttpErr where
  message : String
  name : String
  code : Int
deriving DecidableEq, Repr

/-- Source `httpError(msg, code)`: name `HTTPError`, code defaulting to
500 when the argument is missing or falsy (`code || 500`). -/
def httpError (msg : String) (code : Option Int) : HttpErr :=
  { message := msg, name := "HTTPError",
    code := match code with
      | some c => if c = 0 then 500 else c
      | none => 500 }

/-- Source `logError(action, err, tx)`: an audit entry whose payload is
`{error: err.message, error_code: err.name}`. -/
def logError (action : Option Value) (err : HttpErr) (tx : Tx) : AuditEntry :=
  logAction action
    [("error", some (.str err.message)), ("error_code", some (.str err.name))] tx

/-- Source `mapDispense(tx)`: empty payload for empty `bills`, otherwise
the eight per-cassette columns read from `bills[0]` and `bills[1]`.
`none` models the TypeError a singleton list raises (`bills[1]` is
undefined). -/
def mapDispense (tx : Tx) : Option (List (String × Option Value)) :=
  match tx.bills with
  | [] => some []
  | b1 :: b2 :: _ =>
    some [("provisioned_1", some (.num b1.provisioned)),
      ("provisioned_2", some (.num b2.provisioned)),
      ("dispensed_1", some (.num b1.dispensed)),
      ("dispensed_2", some (.num b2.dispensed)),
      ("rejected_1", some (.num b1.rejected)),
      ("rejected_2", some (.num b2.rejected)),
      ("denomination_1", some (.num b1.denomination)),
      ("denomination_2", some (.num b2.denomination))]
  | _ => none

/-- Source `logDispense(tx)`: merges the dispense counts with
`{error: tx.error, error_code: tx.errorCode}` and picks the action name
by the ternary `tx.dispenseConfirmed ? 'dispense' : 'dispenseError'`. -/
def logDispense (tx : Tx) : Option AuditEntry :=
  (mapDispense tx).map (fun md =>
    logAction
      (some (.str (if truthy tx.dispenseConfirmed then "dispense" else "dispenseError")))
      (md ++ [("error", tx.error), ("error_code", tx.errorCode)]) tx)

/-- Source `updateCassettes(tx)` as the per-cassette decrements it issues
against the `devices` row: `(dispensed+rejected)` for cassette 1 and 2
plus the device id; `none` models the TypeError raised when `bills` has
fewer than two entries. -/
def updateCassettesDec (tx : Tx) : Option (Int × Int × String) :=
  match tx.bills with
  | b1 :: b2 :: _ =>
    some (b1.dispensed + b1.rejected, b2.dispensed + b2.rejected, tx.deviceId)
  | _ => none

/-- An argument as lodash `includes` receives it in `wasJustAuthorized`:
either a status string from the literal arrays, or a whole transaction
record (the source passes `oldTx`/`newTx`, not their `.status`). -/
inductive JsArg
  | vstr : String → JsArg
  | vtx : Tx → JsArg

/-- SameValueZero, the comparison `_.includes` uses.  A record object is
never equal to a string, and two records compare by reference, so any
comparison involving a `vtx` is false here (the collections compared
against contain only strings). -/
def sameValueZero : JsArg → JsArg → Bool
  | .vstr a, .vstr b => a == b
  | _, _ => false

/-- Lodash/fp `_.includes(target, collection)`. -/
def jsIncludes (target : JsArg) (coll : List JsArg) : Bool :=
  coll.any (sameValueZero target)

/-- Source `wasJustAuthorized(oldTx, newTx)` (the third parameter is
never passed): the second disjunct asks whether the *record objects*
`oldTx` and `newTx` are elements of the status-string arrays. -/
def wasJustAuthorized (oldTx newTx : Tx) : Bool :=
  (!(oldTx.status == some (.str "authorized"))
      && (newTx.status == some (.str "authorized")))
    || (jsIncludes (.vtx oldTx) [.vstr "notSeen", .vstr "published", .vstr "authorized"]
      && jsIncludes (.vtx newTx) [.vstr "instant", .vstr "confirmed"])

/-- The "just authorized" transition as claim C1 words it: the status
moves into `authorized` from a state that is not `authorized`, or it
moves from one of notSeen/published/authorized into instant/confirmed.
Stated from the specification, for comparison with `wasJustAuthorized`. -/
def justAuthorizedClaim (oldStatus newStatus : Option Value) : Bool :=
  (!(oldStatus == some (.str "authorized")) && (newStatus == some (.str "authorized")))
    || ((["notSeen", "published", "authorized"].any (fun s => oldStatus == some (.str s)))
      && (["instant", "confirmed"].any (fun s => newStatus == some (.str s))))

/-- Source `updateStatus(oldTx, newTx)`: the new record with its status
ratcheted against the old one. -/
def updateStatus (oldTx newTx : Tx) : Tx :=
  { newTx with status := ratchetStatus oldTx.status newTx.status }

/-- Everything the existing-row branch of `preProcess` does: the record
it resolves to, the audit entries it appends, whether it fired the
integration's `sell`, and the cassette decrement it issued (if any). -/
structure PreResult where
  tx : Tx
  log : List AuditEntry
  sold : Bool
  cassetteDec : Option (Int × Int × String)
deriving DecidableEq, Repr

/-- The dispatch chain of `preProcess` over the already-ratcheted record
`u` (source binds it as `updatedTx`): status change beats dispense
confirmation beats phone addition beats redeem request; `none` models the
TypeError paths inside the dispense branch. -/
def preDispatch (oldTx newTx u : Tx) : Option PreResult :=
  if u.status ≠ oldTx.status then
    some
      { tx := u,
        log := [logAction u.status
          [("to_address", u.toAddress), ("tx_hash", u.txHash)] u],
        sold := wasJustAuthorized oldTx u,
        cassetteDec := none }
  else if !truthy oldTx.dispenseConfirmed && truthy u.dispenseConfirmed then
    match logDispense u, updateCassettesDec u with
    | some e, some dec =>
      some { tx := u, log := [e], sold := false, cassetteDec := some dec }
    | _, _ => none
  else if !truthy oldTx.phone && truthy newTx.phone then
    some
      { tx := u, log := [logAction (some (.str "addPhone")) [] u],
        sold := false, cassetteDec := none }
  else if !truthy oldTx.redeem && truthy newTx.redeem then
    some
      { tx := u, log := [logAction (some (.str "redeemLater")) [] u],
        sold := false, cassetteDec := none }
  else
    some { tx := u, log := [], sold := false, cassetteDec := none }

/-- The existing-row branch of source `preProcess(oldTx, newTx, pi)`. -/
def preProcessExisting (oldTx newTx : Tx) : Option PreResult :=
  preDispatch oldTx newTx (updateStatus oldTx newTx)

/-- The stored row for C1's failing input: status `published`. -/
def c1old : Tx := { c3old with phone := none }

/-- The incoming update for C1's failing input: status `confirmed`. -/
def c1new : Tx := { c1old with status := some (.str "confirmed") }

/-- The stored row for C7: dispense requested but not yet confirmed, two
provisioned cassettes, status `confirmed`. -/
def c7old : Tx :=
  { id := "t3", status := some (.str "confirmed"), txHash := some (.str "0xdef"),
    dispense := some (.bool true), dispenseConfirmed := some (.bool false),
    dispenseTime := none, notified := none, redeem := none,
    phone := none, error := none, errorCode := none, swept := none,
    toAddress := some (.str "addr3"), fiat := 70, deviceId := "d1",
    bills := [⟨1, 1, 0, 20⟩, ⟨1, 1, 0, 50⟩] }

/-- The incoming update for C7: dispense just confirmed, with an error
set (a bill jam), same status. -/
def c7new : Tx :=
  { c7old with
    dispenseConfirmed := some (.bool true),
    error := some (.str "Bill jam"), errorCode := some (.str "JAM") }

/-- Source `INSUFFICIENT_FUNDS_CODE`. -/
def INSUFFICIENT_FUNDS_CODE : Int := 570

/-- How the promise returned by `postProcess` settles: with a record,
with a structured failure, or with an engine TypeError (modelled
abstractly as `crash`; it can only arise when the change maker returns
fewer than two cassette entries). -/
inductive PostOutcome
  | ok : Tx → PostOutcome
  | err : HttpErr → PostOutcome
  | crash : PostOutcome
deriving DecidableEq, Repr

/-- What a `postProcess` call does: how it settles, the audit entries it
appends, and whether it fired the integration's `sell`. -/
structure PostResult where
  outcome : PostOutcome
  log : List AuditEntry
  sold : Bool
deriving DecidableEq, Repr

/-- Source `postProcess(txVector, pi)` with the external change maker and
the cassette inventory passed explicitly (`billMath.makeChange` and
`pi.buildCassettes()` are external collaborators).  When dispense or
redeem was newly requested it sells, runs the change maker, and either
attaches the resulting bills and appends `provisionNotes`, or — when no
combination exists — appends `provisionNotesError` via the catch-block
and re-raises the 570 `Out of bills` failure. -/
def postProcess (mk : List Cassette → Int → Option (List Bill))
    (cassettes : List Cassette) (oldTx newTx : Tx) : PostResult :=
  if (truthy newTx.dispense && !truthy oldTx.dispense)
      || (truthy newTx.redeem && !truthy oldTx.redeem) then
    match mk cassettes newTx.fiat with
    | none =>
      { outcome := .err (httpError "Out of bills" (some INSUFFICIENT_FUNDS_CODE)),
        log := [logError (some (.str "provisionNotesError"))
          (httpError "Out of bills" (some INSUFFICIENT_FUNDS_CODE)) newTx],
        sold := true }
    | some (b1 :: b2 :: rest) =>
      { outcome := .ok { newTx with bills := b1 :: b2 :: rest },
        log := [logAction (some (.str "provisionNotes"))
          [("provisioned_1", some (.num b1.provisioned)),
            ("provisioned_2", some (.num b2.provisioned)),
            ("denomination_1", some (.num b1.denomination)),
            ("denomination_2", some (.num b2.denomination))]
          { newTx with bills := b1 :: b2 :: rest }],
        sold := true }
    | some _ => { outcome := .crash, log := [], sold := true }
  else { outcome := .ok newTx, log := [], sold := false }

/-- Source `cancel(txId)` against a table of rows: the unconditional
update (keyed on `id` alone) runs first; only then is the affected row
count checked, and on exactly one affected row an `operatorCompleted`
entry is appended (with `redeem: false`, via `logActionById`). -/
structure CancelResult where
  failed : Option String
  rows : List Tx
  log : List AuditEntry
deriving DecidableEq, Repr

/-- The column values `cancel` forces onto the matched row (`dispense_time`
is the raw-SQL marker string the source supplies). -/
def cancelRow (r : Tx) : Tx :=
  { r with
    dispenseTime := some (.str "now()^"),
    error := some (.str "Operator cancel"),
    dispense := some (.bool true) }

/-- Source `cancel(txId)`. -/
def cancel (rows : List Tx) (txId : String) : CancelResult :=
  let updated := rows.map (fun r => if r.id = txId then cancelRow r else r)
  if (rows.filter (fun r => r.id = txId)).length = 1 then
    { failed := none, rows := updated,
      log := [logActionById (some (.str "operatorCompleted")) [] txId] }
  else
    { failed := some "No such tx-id", rows := updated, log := [] }

/-- An already-terminal row: cancelled once already. -/
def c8term : Tx := cancelRow { c1old with id := "t2" }

/-- A record newly requesting dispense, for the C6 witness. -/
def c6new : Tx := { c1old with dispense := some (.bool true) }

/-- C2: over all pairs drawn from the six ordered statuses plus
`insufficientFunds`, `ratchetStatus` returns `insufficientFunds`
unconditionally when the new status is `insufficientFunds`, returns the
old status unchanged when the two are equal, and otherwise always returns
some status whose rank in `statusOrder` is at least the rank of the old
status (`insufficientFunds` itself ranking `-1`). -/
theorem ratchet_monotone (o n : StatusV) :
    (n = StatusV.insufficientFunds →
      ratchetStatus o.toVal n.toVal = some (.str "insufficientFunds"))
    ∧ (o = n → ratchetStatus o.toVal n.toVal = o.toVal)
    ∧ (n ≠ StatusV.insufficientFunds →
      (ratchetStatus o.toVal n.toVal).isSome = true
      ∧ jsIndexOf statusOrder (ratchetStatus o.toVal n.toVal)
          ≥ jsIndexOf statusOrder o.toVal) := by
  revert o n
  decide

/-- Witness for C2: each hypothesis of `ratchet_monotone` discharged at a
concrete status pair. -/
theorem ratchet_monotone_witness :
    ratchetStatus StatusV.published.toVal StatusV.insufficientFunds.toVal
      = some (.str "insufficientFunds")
    ∧ ratchetStatus StatusV.instant.toVal StatusV.instant.toVal
      = StatusV.instant.toVal
    ∧ ((ratchetStatus StatusV.authorized.toVal StatusV.published.toVal).isSome = true
      ∧ jsIndexOf statusOrder (ratchetStatus StatusV.authorized.toVal StatusV.published.toVal)
          ≥ jsIndexOf statusOrder StatusV.authorized.toVal) :=
  ⟨(ratchet_monotone .published .insufficientFunds).1 rfl,
   (ratchet_monotone .instant .instant).2.1 rfl,
   (ratchet_monotone .authorized .published).2.2 (by decide)⟩

/-- C10: the `insufficientFunds` override is not sticky — for every status
in the six-element order, ratcheting from `insufficientFunds` to it yields
it, because `insufficientFunds` has index `-1` in `statusOrder`. -/
theorem insufficientFunds_not_sticky (n : StatusV)
    (h : n ≠ StatusV.insufficientFunds) :
    ratchetStatus StatusV.insufficientFunds.toVal n.toVal = n.toVal := by
  revert n
  decide

/-- Witness for C10: a later `confirmed` update moves a transaction out of
`insufficientFunds`. -/
theorem insufficientFunds_not_sticky_witness :
    ratchetStatus StatusV.insufficientFunds.toVal StatusV.confirmed.toVal
      = StatusV.confirmed.toVal :=
  insufficientFunds_not_sticky .confirmed (by decide)

/-- C3: with an existing row, `diff` includes an updateable field in the
patch exactly when the new value is not (nil-)equal to the old one and
the new value is itself non-nil; consequently a stored non-null field is
never overwritten with null. -/
theorem diff_field_characterization (o n : Tx) (f : TxField) :
    ((diffGet (some o) n f).isSome
      = (!(nilEqualWith (getField o f) (getField n f)) && (getField n f).isSome))
    ∧ ((getField o f).isSome = true → getField n f = none →
      diffGet (some o) n f = none) := by
  constructor
  · cases hg : getField n f <;>
      by_cases h : nilEqualWith (getField o f) (getField n f) = true <;>
        simp [diffGet, hg, h] <;> simp [hg] at h <;> simp [h]
  · intro h1 h2
    cases hx : getField o f with
    | none => rw [hx] at h1; simp at h1
    | some v => simp [diffGet, h2, hx, nilEqualWith]

/-- Witness for C3: a stored phone number is not nulled out by an update
whose record lacks the phone. -/
theorem diff_field_characterization_witness :
    diffGet (some c3old) c3new TxField.phone = none :=
  (diff_field_characterization c3old c3new .phone).2 rfl rfl

/-- C4 evaluated at its failing input: the patch carries only `status`,
yet the issued SQL update writes every column of the full record
(`toDb(tx)` rather than `toDb(changes)`), `phone` included.  The second
half of the claim does hold: the resolved record is the prior record with
the patch applied. -/
theorem update_writes_full_record :
    ((update c4tx c4patch).write.map (fun l => l.map Prod.fst))
      = some ["id", "status", "tx_hash", "dispense", "dispense_confirmed",
        "dispense_time", "notified", "redeem", "phone", "error", "error_code",
        "swept", "to_address", "fiat", "device_id"]
    ∧ c4patch.map Prod.fst = [TxField.status]
    ∧ (update c4tx c4patch).tx = { c4tx with status := some (.str "confirmed") } := by
  refine ⟨rfl, rfl, rfl⟩

/-- C5: `update(tx, changes)` with an empty patch issues no SQL at all and
resolves to the unchanged record, so a repeated identical update is an
idempotent no-op. -/
theorem update_empty_patch_noop (tx : Tx) (changes : Patch)
    (h : changes.isEmpty = true) :
    update tx changes = { write := none, tx := tx } := by
  simp [update, h]

/-- Witness for C5: the empty patch on a concrete record. -/
theorem update_empty_patch_noop_witness :
    update c4tx [] = { write := none, tx := c4tx } :=
  update_empty_patch_noop c4tx [] rfl

/-- C1 evaluated at its failing input (stored status `published`,
incoming status `confirmed`): the ratcheted status differs from the old
one and the claim's "just authorized" predicate holds (moving from
`published` into `confirmed`), yet `preProcess` does not invoke the
integration's `sell`, because `wasJustAuthorized` compares the record
objects themselves — not their `.status` — against the status-string
arrays, so its second disjunct is always false. -/
theorem sell_not_invoked_on_confirm :
    (updateStatus c1old c1new).status ≠ c1old.status
    ∧ justAuthorizedClaim c1old.status (updateStatus c1old c1new).status = true
    ∧ wasJustAuthorized c1old (updateStatus c1old c1new) = false
    ∧ (preProcessExisting c1old c1new).map PreResult.sold = some false := by
  refine ⟨by decide, rfl, rfl, rfl⟩

/-- Counterexample to C7 as stated: the dispense-confirmed transition
with an error set appends an entry named `dispense`, not `dispenseError`,
because `logDispense` picks the name by `tx.dispenseConfirmed` (true in
this branch by construction), not by whether `error` is set. -/
theorem dispense_action_counterexample :
    truthy c7new.error = true
    ∧ truthy c7old.dispenseConfirmed = false
    ∧ truthy c7new.dispenseConfirmed = true
    ∧ (preProcessExisting c7old c7new).map (fun r => r.log.map AuditEntry.action)
        = some [some (.str "dispense")]
    ∧ (preProcessExisting c7old c7new).map (fun r => r.log.map AuditEntry.action)
        ≠ some [some (.str "dispenseError")] := by
  refine ⟨rfl, rfl, rfl, rfl, by decide⟩

/-- Ratcheting a status against itself is the identity (first branch of
`ratchetStatus`). -/
theorem ratchet_self (s : Option Value) : ratchetStatus s s = s := by
  simp [ratchetStatus]

/-- `updateStatus` of a record against itself is the identity. -/
theorem updateStatus_self (n : Tx) : updateStatus n n = n := by
  unfold updateStatus
  rw [ratchet_self]

/-- A Boolean is never both false and true. -/
theorem notAndSelf (b : Bool) : (!b && b) = false := by cases b <;> rfl

/-- A Boolean is never both true and false. -/
theorem andNotSelf (b : Bool) : (b && !b) = false := by cases b <;> rfl

/-- The nil-aware comparison used by `diff` is reflexive. -/
theorem nilEqualWith_refl (v : Option Value) : nilEqualWith v v = true := by
  cases v <;> simp [nilEqualWith]

/-- C7 as the code actually behaves (amended): when `dispenseConfirmed`
flips false→true with the ratcheted status unchanged and two bills
attached, exactly one audit entry is appended, its action is always
`dispense` (it would be `dispenseError` only if `dispenseConfirmed` were
falsy, impossible in this branch; any error travels in the payload), it
carries the per-cassette provisioned/dispensed/rejected/denomination
counts, and the cassette inventory decrement is `dispensed + rejected`
per cassette for the record's device. -/
theorem dispense_confirm_transition (o n : Tx) (b1 b2 : Bill)
    (hst : ratchetStatus o.status n.status = o.status)
    (hold : truthy o.dispenseConfirmed = false)
    (hnew : truthy n.dispenseConfirmed = true)
    (hb : n.bills = [b1, b2]) :
    preProcessExisting o n = some
      { tx := updateStatus o n,
        log := [{
          action := some (.str "dispense"), tx_id := n.id,
          redeem := truthy n.redeem,
          payload := [("provisioned_1", some (.num b1.provisioned)),
            ("provisioned_2", some (.num b2.provisioned)),
            ("dispensed_1", some (.num b1.dispensed)),
            ("dispensed_2", some (.num b2.dispensed)),
            ("rejected_1", some (.num b1.rejected)),
            ("rejected_2", some (.num b2.rejected)),
            ("denomination_1", some (.num b1.denomination)),
            ("denomination_2", some (.num b2.denomination)),
            ("error", n.error), ("error_code", n.errorCode)] }],
        sold := false,
        cassetteDec := some (b1.dispensed + b1.rejected,
          b2.dispensed + b2.rejected, n.deviceId) } := by
  simp [preProcessExisting, preDispatch, updateStatus, hst, hold, hnew, hb,
    logDispense, mapDispense, logAction, updateCassettesDec]

/-- Witness for the amended C7 at the concrete bill-jam transition. -/
theorem dispense_confirm_transition_witness :
    preProcessExisting c7old c7new = some
      { tx := updateStatus c7old c7new,
        log := [{
          action := some (.str "dispense"), tx_id := "t3",
          redeem := false,
          payload := [("provisioned_1", some (.num 1)),
            ("provisioned_2", some (.num 1)),
            ("dispensed_1", some (.num 1)),
            ("dispensed_2", some (.num 1)),
            ("rejected_1", some (.num 0)),
            ("rejected_2", some (.num 0)),
            ("denomination_1", some (.num 20)),
            ("denomination_2", some (.num 50)),
            ("error", some (.str "Bill jam")),
            ("error_code", some (.str "JAM"))] }],
        sold := false,
        cassetteDec := some (1, 1, "d1") } :=
  dispense_confirm_transition c7old c7new ⟨1, 1, 0, 20⟩ ⟨1, 1, 0, 50⟩
    (by decide) rfl rfl rfl

/-- C6: when dispensing or redemption was newly requested and the change
maker has no viable bill combination for the requested fiat amount,
`postProcess` settles with the structured 570 `Out of bills` failure
(which `post` re-raises to its caller, so no record is persisted), no
bills-carrying record is produced, and exactly one `provisionNotesError`
audit entry is appended before the failure propagates. -/
theorem postProcess_insufficient_funds
    (mk : List Cassette → Int → Option (List Bill)) (cs : List Cassette)
    (o n : Tx)
    (hreq : ((truthy n.dispense && !truthy o.dispense)
      || (truthy n.redeem && !truthy o.redeem)) = true)
    (hmk : mk cs n.fiat = none) :
    postProcess mk cs o n =
      { outcome := .err { message := "Out of bills", name := "HTTPError", code := 570 },
        log := [{
          action := some (.str "provisionNotesError"), tx_id := n.id,
          redeem := truthy n.redeem,
          payload := [("error", some (.str "Out of bills")),
            ("error_code", some (.str "HTTPError"))] }],
        sold := true } := by
  simp [postProcess, hreq, hmk, httpError, logError, logAction,
    INSUFFICIENT_FUNDS_CODE]

/-- Witness for C6: a change maker with no viable combination. -/
theorem postProcess_insufficient_funds_witness :
    postProcess (fun _ _ => none) [] c1old c6new =
      { outcome := .err { message := "Out of bills", name := "HTTPError", code := 570 },
        log := [{
          action := some (.str "provisionNotesError"), tx_id := "t1",
          redeem := false,
          payload := [("error", some (.str "Out of bills")),
            ("error_code", some (.str "HTTPError"))] }],
        sold := true } :=
  postProcess_insufficient_funds (fun _ _ => none) [] c1old c6new rfl rfl

/-- C9: a second `post()` whose incoming record carries exactly the
stored row's field values is a no-op — pre-processing neither ratchets
the status nor fires any side effect and appends no audit entry, the
store diff is empty so the upsert issues no SQL, and post-processing
appends nothing and settles with the unchanged record. -/
theorem post_identical_second_call (n : Tx)
    (mk : List Cassette → Int → Option (List Bill)) (cs : List Cassette) :
    preProcessExisting n n
      = some { tx := n, log := [], sold := false, cassetteDec := none }
    ∧ diff (some n) n = []
    ∧ update n (diff (some n) n) = { write := none, tx := n }
    ∧ postProcess mk cs n n = { outcome := .ok n, log := [], sold := false } := by
  have hdiff : diff (some n) n = [] := by
    simp [diff, UPDATEABLE_FIELDS, diffGet, nilEqualWith_refl]
  refine ⟨?_, hdiff, ?_, ?_⟩
  · simp [preProcessExisting, updateStatus_self, preDispatch, notAndSelf]
  · rw [hdiff]
    simp [update]
  · simp [postProcess, andNotSelf]

/-- C8 as the code actually behaves (amended): `cancel` fails with the
not-found condition exactly when the affected row count differs from one
— in particular for a nonexistent id — and on success appends exactly one
`operatorCompleted` entry; but the update is conditioned only on the id,
so an existing row matches whether open or already terminal, and a
repeated cancel succeeds again. -/
theorem cancel_rowcount_spec (rows : List Tx) (txId : String) :
    ((cancel rows txId).failed = none
      ↔ (rows.filter (fun r => r.id = txId)).length = 1)
    ∧ ((cancel rows txId).failed = none →
      (cancel rows txId).log
        = [logActionById (some (.str "operatorCompleted")) [] txId])
    ∧ ((cancel rows txId).failed ≠ none →
      (cancel rows txId).failed = some "No such tx-id"
        ∧ (cancel rows txId).log = [])
    ∧ ((rows.filter (fun r => r.id = txId)).length = 0 →
      (cancel rows txId).failed = some "No such tx-id") := by
  by_cases h : (rows.filter (fun r => r.id = txId)).length = 1 <;>
    simp [cancel, h]

/-- Witness for the amended C8: an existing id succeeds, a missing id
fails with not-found. -/
theorem cancel_rowcount_spec_witness :
    (cancel [c8term] "t2").failed = none
    ∧ (cancel [c8term] "nope").failed = some "No such tx-id" :=
  ⟨(cancel_rowcount_spec [c8term] "t2").1.mpr (by decide),
   (cancel_rowcount_spec [c8term] "nope").2.2.2 (by decide)⟩

/-- Counterexample to C8 as stated: an already-terminal row (cancelled
once already) still matches the id-only update, so `cancel` succeeds on
it — and succeeds yet again on the result — appending another
`operatorCompleted` entry each time, instead of failing with not-found. -/
theorem cancel_terminal_counterexample :
    (cancel [c8term] "t2").failed = none
    ∧ (cancel (cancel [c8term] "t2").rows "t2").failed = none
    ∧ (cancel (cancel [c8term] "t2").rows "t2").log
        = [logActionById (some (.str "operatorCompleted")) [] "t2"] := by
  refine ⟨rfl, rfl, rfl⟩

end CashOut
